import Mathlib

/-!
Verification of the gate-gcp-controller lifecycle plugin: a shallow embedding
of `src/plugins/gcpcontroller/gcpcontroller.go` together with theorems about
its event handlers, throttle logic and timers.

Modelling conventions:
* Timestamps are `Nat` nanoseconds (mirroring Go `time.Time`/`time.Duration`);
  `minuteNs` is `time.Minute` in nanoseconds.
* The Go zero value `time.Time{}` for `lastStartTime` is modelled as
  `Option Nat` with `none` (the code only tests it via `IsZero`).
* `playerCount` is `Int`, as in the Go struct (`playerCount int`), so that the
  clamping at 0 in `onDisconnect` is a real operation.
* The single `*time.Timer` field `shutdownTimer` is modelled as `Option Nat`
  holding the absolute deadline of the armed timer; assigning a new
  `time.AfterFunc` after `Stop()`ing the old one is replacing the option value.
* The blocking GCP API calls (`client.Get`, `client.Start`, `op.Wait`,
  `client.Stop`) are oracles supplied in an `Env` record: each invocation of a
  handler receives the results the external API would have produced.  Handlers
  additionally return the list of API calls they issued, so that claims about
  which calls happen ("issues neither GetStatus nor Start") are statable.
* `tryStartServer` takes two timestamps: `now` (the instant the throttle check
  reads the clock, `time.Since`) and `nowDone` (the instant `time.Now()` is
  read after `op.Wait` returns, line 324 of the source), with `now ≤ nowDone`
  in chronological traces.
-/

namespace GateGcp

/-- Go constant `time.Minute` in nanoseconds (Go `time.Duration` units). -/
def minuteNs : Nat := 60000000000

/-- Which GCP instance-API calls a handler issued, in order. -/
inductive ApiCall where
  | getStatus
  | start
  | stop
deriving DecidableEq, Repr

/-- Results the external world supplies to one handler invocation:
`client.Get` (instance status string or error), `client.Start` / its
`op.Wait`, and `client.Stop` / its `op.Wait`. -/
structure Env where
  getStatusResult : Except String String
  startResult : Except String Unit
  waitStartResult : Except String Unit
  stopResult : Except String Unit
  waitStopResult : Except String Unit
deriving Repr

/-- Configuration struct `Config` from the source (lines 84-93); durations
kept in minutes as in the Go struct. -/
structure Config where
  ProjectID : String
  Zone : String
  InstanceName : String
  ServerAddress : String
  IdleTimeoutMinutes : Nat
  StartupThresholdMinutes : Nat
  StartingMessage : String
  CredentialsPath : String
deriving Repr

/-- The mutable controller state `gcpController` (lines 69-81): exactly the
fields the handlers read or write.  Note the struct has a single timer field
(`shutdownTimer`); there is no safety-timer field. -/
structure gcpController where
  playerCount : Int
  lastActivity : Nat
  lastStartTime : Option Nat
  shutdownTimer : Option Nat
  isStarting : Bool
deriving DecidableEq, Repr

/-- The state built in `Init` (lines 44-53): zero players, `lastActivity =
time.Now()`, `lastStartTime = time.Time{}`, no timer, `isStarting` false. -/
def initController (now : Nat) : gcpController :=
  { playerCount := 0
    lastActivity := now
    lastStartTime := none
    shutdownTimer := none
    isStarting := false }

/-- The startup-threshold check at the top of `tryStartServer` (lines
271-279): skip when `lastStartTime` is set and `time.Since(lastStartTime)` is
below `StartupThresholdMinutes` minutes. -/
def throttled (cfg : Config) (now : Nat) (g : gcpController) : Bool :=
  match g.lastStartTime with
  | none => false
  | some t => now - t < cfg.StartupThresholdMinutes * minuteNs

/-- Function `tryStartServer` (lines 265-330).  Returns the updated state,
the Go `error` result, and the API calls issued.  `now` is the clock at the
throttle check; `nowDone` is the clock after `op.Wait` returns (line 324). -/
def tryStartServer (cfg : Config) (env : Env) (now nowDone : Nat)
    (g : gcpController) : gcpController × Except String Unit × List ApiCall :=
  if throttled cfg now g then (g, Except.ok (), [])
  else
    match env.getStatusResult with
    | Except.error e =>
        (g, Except.error ("failed to get instance state: " ++ e), [ApiCall.getStatus])
    | Except.ok status =>
        if status != "TERMINATED" && status != "STOPPED" then
          (g, Except.ok (), [ApiCall.getStatus])
        else
          match env.startResult with
          | Except.error e =>
              (g, Except.error ("failed to start instance: " ++ e),
                [ApiCall.getStatus, ApiCall.start])
          | Except.ok _ =>
              match env.waitStartResult with
              | Except.error e =>
                  (g, Except.error ("failed to wait for start operation: " ++ e),
                    [ApiCall.getStatus, ApiCall.start])
              | Except.ok _ =>
                  ({ g with lastStartTime := some nowDone, isStarting := true },
                    Except.ok (), [ApiCall.getStatus, ApiCall.start])

/-- Function `stopServer` (lines 365-410): `client.Get`, skip unless status
is `RUNNING`, else `client.Stop` and `op.Wait`.  It never touches controller
state; it returns the Go `error` and the calls issued. -/
def stopServer (cfg : Config) (env : Env) : Except String Unit × List ApiCall :=
  match env.getStatusResult with
  | Except.error e =>
      (Except.error ("failed to get instance state: " ++ e), [ApiCall.getStatus])
  | Except.ok status =>
      if status != "RUNNING" then (Except.ok (), [ApiCall.getStatus])
      else
        match env.stopResult with
        | Except.error e =>
            (Except.error ("failed to stop instance: " ++ e),
              [ApiCall.getStatus, ApiCall.stop])
        | Except.ok _ =>
            match env.waitStopResult with
            | Except.error e =>
                (Except.error ("failed to wait for stop operation: " ++ e),
                  [ApiCall.getStatus, ApiCall.stop])
            | Except.ok _ =>
                (Except.ok (), [ApiCall.getStatus, ApiCall.stop])

/-- The closure passed to `time.AfterFunc` in `scheduleShutdown` (lines
339-358): under the lock, if players are online do nothing; otherwise run
`stopServer` and log its error, if any.  It returns the (unchanged) state, the
API calls issued, and the error reported to the log. -/
def shutdownTimerFunc (cfg : Config) (env : Env) (g : gcpController) :
    gcpController × List ApiCall × Option String :=
  if g.playerCount > 0 then (g, [], none)
  else
    match stopServer cfg env with
    | (Except.ok _, calls) => (g, calls, none)
    | (Except.error e, calls) => (g, calls, some e)

/-- Function `scheduleShutdown` (lines 332-363): stop any existing timer,
then arm a new one for `IdleTimeoutMinutes` minutes from now.  The single
timer slot is overwritten, so at most one idle timer is outstanding. -/
def scheduleShutdown (cfg : Config) (now : Nat) (g : gcpController) : gcpController :=
  { g with shutdownTimer := some (now + cfg.IdleTimeoutMinutes * minuteNs) }

/-- Handler `onServerPreConnect` (lines 157-187).  `originalServer` is the
name of `e.OriginalServer()` (`none` when the server is nil); `reachable` is
the result of `isServerReachable` (only consulted after the guard, as in the
source).  Returns the state, whether `e.Deny()` was called, the kick message
delivered via `Disconnect`, and the API calls issued. -/
def onServerPreConnect (cfg : Config) (env : Env) (originalServer : Option String)
    (reachable : Bool) (now nowDone : Nat) (g : gcpController) :
    gcpController × Bool × Option String × List ApiCall :=
  match originalServer with
  | none => (g, false, none, [])
  | some name =>
      if name != cfg.ServerAddress then (g, false, none, [])
      else if reachable then (g, false, none, [])
      else
        let r := tryStartServer cfg env now nowDone g
        (r.1, true, some cfg.StartingMessage, r.2.2)

/-- Handler `onServerPostConnect` (lines 189-215).  `currentServer` is the
server name of `e.Player().CurrentServer()` (`none` when nil).  Increments
the player count, updates `lastActivity`, and cancels the shutdown timer if
one is armed.  Note: it does not write `isStarting`. -/
def onServerPostConnect (cfg : Config) (currentServer : Option String)
    (now : Nat) (g : gcpController) : gcpController :=
  match currentServer with
  | none => g
  | some name =>
      if name != cfg.ServerAddress then g
      else
        let g1 := { g with playerCount := g.playerCount + 1, lastActivity := now }
        match g1.shutdownTimer with
        | some _ => { g1 with shutdownTimer := none }
        | none => g1

/-- Handler `onDisconnect` (lines 217-243): decrement clamped at 0, update
`lastActivity`, and when the count reaches 0 arm the idle timer via
`scheduleShutdown`. -/
def onDisconnect (cfg : Config) (currentServer : Option String)
    (now : Nat) (g : gcpController) : gcpController :=
  match currentServer with
  | none => g
  | some name =>
      if name != cfg.ServerAddress then g
      else
        let pc0 := g.playerCount - 1
        let pc := if pc0 < 0 then 0 else pc0
        let g1 := { g with playerCount := pc, lastActivity := now }
        if pc = 0 then scheduleShutdown cfg now g1 else g1

/-- The dispatch guard shared by the three handlers: the event concerns the
managed server exactly when the server is non-nil and its name equals
`Config.ServerAddress`. -/
def targetsManaged (cfg : Config) : Option String → Bool
  | none => false
  | some name => name == cfg.ServerAddress

/-- One controller operation, with the data the outside world feeds it: the
event's server, the probe result, the API-call results, and the clock. -/
inductive Op where
  | preConnect (originalServer : Option String) (reachable : Bool) (env : Env)
      (now nowDone : Nat)
  | postConnect (currentServer : Option String) (now : Nat)
  | disconnect (currentServer : Option String) (now : Nat)
  | timerFire (env : Env)

/-- Effect of one operation on the controller state. -/
def step (cfg : Config) (g : gcpController) : Op → gcpController
  | Op.preConnect srv reach env now nowDone =>
      (onServerPreConnect cfg env srv reach now nowDone g).1
  | Op.postConnect srv now => onServerPostConnect cfg srv now g
  | Op.disconnect srv now => onDisconnect cfg srv now g
  | Op.timerFire env => (shutdownTimerFunc cfg env g).1

/-- Run a sequence of operations from a state. -/
def run (cfg : Config) (g : gcpController) (ops : List Op) : gcpController :=
  ops.foldl (step cfg) g

/-- One connection attempt that reached `tryStartServer` (managed target,
probe unreachable): the clock at its throttle check (`tEntry`), the clock
after its `op.Wait` (`tDone`), and the API results it observes. -/
structure Attempt where
  tEntry : Nat
  tDone : Nat
  env : Env

/-- A trace of attempts is chronological from instant `t`: each attempt
enters no earlier than `t`, finishes no earlier than it enters, and the next
attempt enters no earlier than the previous one finished (the lock is held
for the whole body of `tryStartServer`, so attempts serialize). -/
def Chrono : Nat → List Attempt → Bool
  | _, [] => true
  | t, a :: rest =>
      decide (t ≤ a.tEntry) && decide (a.tEntry ≤ a.tDone) && Chrono a.tDone rest

/-- Whether a `tryStartServer` result corresponds to a `Start` call that was
issued and completed successfully (the path reaching lines 324-329). -/
def startOk (r : gcpController × Except String Unit × List ApiCall) : Bool :=
  decide (ApiCall.start ∈ r.2.2) &&
    (match r.2.1 with
     | Except.ok _ => true
     | Except.error _ => false)

/-- Entry/completion instants of the attempts in a trace whose `Start` call
was issued and succeeded. -/
def okStarts (cfg : Config) : gcpController → List Attempt → List (Nat × Nat)
  | _, [] => []
  | g, a :: rest =>
      if startOk (tryStartServer cfg a.env a.tEntry a.tDone g) then
        (a.tEntry, a.tDone) ::
          okStarts cfg (tryStartServer cfg a.env a.tEntry a.tDone g).1 rest
      else okStarts cfg (tryStartServer cfg a.env a.tEntry a.tDone g).1 rest

/-- All API calls a trace of attempts issues, tagged with the attempt's entry
instant. -/
def runAttemptsCalls (cfg : Config) : gcpController → List Attempt → List (Nat × ApiCall)
  | _, [] => []
  | g, a :: rest =>
      (tryStartServer cfg a.env a.tEntry a.tDone g).2.2.map (fun c => (a.tEntry, c)) ++
        runAttemptsCalls cfg (tryStartServer cfg a.env a.tEntry a.tDone g).1 rest

/-- Instants at which a trace of attempts issues `Start` calls (successful or
not). -/
def startCallTimes (cfg : Config) (g : gcpController) (as : List Attempt) : List Nat :=
  ((runAttemptsCalls cfg g as).filter (fun p => decide (p.2 = ApiCall.start))).map Prod.fst

/-- Every attempt of the trace observes instance status `STOPPED`. -/
def allStopped (as : List Attempt) : Bool :=
  as.all (fun a =>
    match a.env.getStatusResult with
    | Except.ok s => s == "STOPPED"
    | Except.error _ => false)

/-- At most one of the listed instants falls inside any half-open window of
width `w`. -/
def atMostOnePerWindow (w : Nat) (ts : List Nat) : Prop :=
  ∀ w0 : Nat, ts.countP (fun t => decide (w0 ≤ t) && decide (t < w0 + w)) ≤ 1

/-- The entry/completion pairs are separated by at least `w`: each entry is
at least `w` after the previous completion (`prev` is the completion instant
of the last successful start before the list, if any). -/
def Spaced (w : Nat) : Option Nat → List (Nat × Nat) → Prop
  | _, [] => True
  | prev, p :: rest =>
      (∀ t, prev = some t → t + w ≤ p.1) ∧ p.1 ≤ p.2 ∧ Spaced w (some p.2) rest

/-- A concrete configuration used by counterexamples and witnesses. -/
def cfgW : Config :=
  { ProjectID := "proj"
    Zone := "us-east1-b"
    InstanceName := "mc-server"
    ServerAddress := "survival"
    IdleTimeoutMinutes := 30
    StartupThresholdMinutes := 5
    StartingMessage := "Server is starting up! Please wait 30-60 seconds and try again."
    CredentialsPath := "" }

/-- An environment in which the instance is stopped and every call succeeds. -/
def envStartOk : Env :=
  { getStatusResult := Except.ok "STOPPED"
    startResult := Except.ok ()
    waitStartResult := Except.ok ()
    stopResult := Except.ok ()
    waitStopResult := Except.ok () }

/-- An environment in which the instance is stopped but `client.Start` fails. -/
def envStartFail : Env :=
  { getStatusResult := Except.ok "STOPPED"
    startResult := Except.error "quota exceeded"
    waitStartResult := Except.ok ()
    stopResult := Except.ok ()
    waitStopResult := Except.ok () }

/-- An environment in which `client.Get` itself fails. -/
def envGetFail : Env :=
  { getStatusResult := Except.error "boom"
    startResult := Except.ok ()
    waitStartResult := Except.ok ()
    stopResult := Except.ok ()
    waitStopResult := Except.ok () }

/-- An environment in which the instance is running but `client.Stop` fails. -/
def envStopFail : Env :=
  { getStatusResult := Except.ok "RUNNING"
    startResult := Except.ok ()
    waitStartResult := Except.ok ()
    stopResult := Except.error "api down"
    waitStopResult := Except.ok () }

/-- An environment in which the instance is already running. -/
def envRunning : Env :=
  { getStatusResult := Except.ok "RUNNING"
    startResult := Except.ok ()
    waitStartResult := Except.ok ()
    stopResult := Except.ok ()
    waitStopResult := Except.ok () }

/-- A controller state as left by a successful start that nobody joined:
starting flag set, an idle timer armed earlier still pending. -/
def gStarting : gcpController :=
  { playerCount := 0
    lastActivity := 0
    lastStartTime := some 5
    shutdownTimer := some 100
    isStarting := true }

/-- A controller state inside the startup-throttle window at instant 0. -/
def gThrottled : gcpController :=
  { playerCount := 0
    lastActivity := 0
    lastStartTime := some 0
    shutdownTimer := none
    isStarting := true }

/-- A controller state with a single player attributed to the instance. -/
def gOne : gcpController :=
  { playerCount := 1
    lastActivity := 0
    lastStartTime := none
    shutdownTimer := some 3
    isStarting := false }

/-- Two attempts, both observing a stopped instance, both with a failing
`Start` call, one nanosecond apart. -/
def cexTrace : List Attempt :=
  [ { tEntry := 0, tDone := 0, env := envStartFail },
    { tEntry := 1, tDone := 1, env := envStartFail } ]

/-- One attempt with a successful start. -/
def goodTrace : List Attempt :=
  [ { tEntry := 0, tDone := 7, env := envStartOk } ]

/-- Any `tryStartServer` run either leaves the state unchanged or performs
exactly the success-path update of lines 324-325 (record the start
completion instant, raise `isStarting`). -/
theorem tryStartServer_cases (cfg : Config) (env : Env) (now nowDone : Nat)
    (g : gcpController) :
    (tryStartServer cfg env now nowDone g).1 = g ∨
    (tryStartServer cfg env now nowDone g).1 =
      { g with lastStartTime := some nowDone, isStarting := true } := by
  unfold tryStartServer
  split
  · exact Or.inl rfl
  · split
    · exact Or.inl rfl
    · split
      · exact Or.inl rfl
      · split
        · exact Or.inl rfl
        · split
          · exact Or.inl rfl
          · exact Or.inr rfl

/-- The shutdown-timer callback never mutates the controller state: it only
reads `playerCount` and drives the external stop calls. -/
theorem shutdownTimerFunc_fst (cfg : Config) (env : Env) (g : gcpController) :
    (shutdownTimerFunc cfg env g).1 = g := by
  unfold shutdownTimerFunc
  split
  · rfl
  · split <;> rfl

/-- C6: if `tryStartServer` fails (`client.Get` fails, `client.Start` fails,
or `op.Wait` fails), the controller state is returned unchanged —
`lastStartTime`, `isStarting`, the timer field and every other field are
exactly as before the call, so a later attempt may retry once the throttle
window permits. -/
theorem C6_failed_start_frame (cfg : Config) (env : Env) (now nowDone : Nat)
    (g : gcpController) (e : String)
    (h : (tryStartServer cfg env now nowDone g).2.1 = Except.error e) :
    (tryStartServer cfg env now nowDone g).1 = g := by
  by_cases ht : throttled cfg now g = true
  · simp [tryStartServer, ht] at h
  · rcases hg : env.getStatusResult with e1 | status
    · simp [tryStartServer, ht, hg]
    · by_cases hs : (status != "TERMINATED" && status != "STOPPED") = true
      · simp [tryStartServer, ht, hg, hs] at h
      · rcases hst : env.startResult with e2 | u1
        · simp [tryStartServer, ht, hg, hs, hst]
        · rcases hw : env.waitStartResult with e3 | u2
          · simp [tryStartServer, ht, hg, hs, hst, hw]
          · simp [tryStartServer, ht, hg, hs, hst, hw] at h

/-- Witness for C6: a concrete failing `client.Get` leaves the freshly
initialized controller untouched. -/
theorem C6_failed_start_witness :
    (tryStartServer cfgW envGetFail 3 4 (initController 0)).2.1 =
      Except.error ("failed to get instance state: " ++ "boom") ∧
    (tryStartServer cfgW envGetFail 3 4 (initController 0)).1 = initController 0 :=
  ⟨rfl, C6_failed_start_frame cfgW envGetFail 3 4 (initController 0)
    ("failed to get instance state: " ++ "boom") rfl⟩

/-- C7: a connection attempt targeting the managed server whose reachability
probe returned false is always denied and always receives the starting
message, for every environment — whether the start was issued, throttled, or
failed. -/
theorem C7_deny_unconditional (cfg : Config) (env : Env) (now nowDone : Nat)
    (g : gcpController) (name : String) (hname : name = cfg.ServerAddress) :
    (onServerPreConnect cfg env (some name) false now nowDone g).2.1 = true ∧
    (onServerPreConnect cfg env (some name) false now nowDone g).2.2.1 =
      some cfg.StartingMessage := by
  subst hname
  simp [onServerPreConnect]

/-- Witness for C7: even when `client.Get` fails, the player is denied with
the starting message. -/
theorem C7_deny_witness :
    ("survival" : String) = cfgW.ServerAddress ∧
    (onServerPreConnect cfgW envGetFail (some "survival") false 0 0
        (initController 0)).2.1 = true ∧
    (onServerPreConnect cfgW envGetFail (some "survival") false 0 0
        (initController 0)).2.2.1 = some cfgW.StartingMessage :=
  ⟨rfl, C7_deny_unconditional cfgW envGetFail 0 0 (initController 0) "survival" rfl⟩

/-- C9: an event whose server is nil or differs from the configured managed
address is a complete no-op for all three handlers: the state is returned
unchanged, the connection is not denied, no message is sent, and no API call
is issued (in the source the guard returns before `isServerReachable` or any
client call; here the result is independent of `reachable` and of `env`). -/
theorem C9_unmanaged_noop (cfg : Config) (env : Env) (reachable : Bool)
    (now nowDone tJoin tQuit : Nat) (g : gcpController) (srv : Option String)
    (h : targetsManaged cfg srv = false) :
    onServerPreConnect cfg env srv reachable now nowDone g = (g, false, none, []) ∧
    onServerPostConnect cfg srv tJoin g = g ∧
    onDisconnect cfg srv tQuit g = g := by
  cases srv with
  | none => exact ⟨rfl, rfl, rfl⟩
  | some name =>
      have hne : (name == cfg.ServerAddress) = false := by
        simpa [targetsManaged] using h
      refine ⟨?_, ?_, ?_⟩ <;>
        simp [onServerPreConnect, onServerPostConnect, onDisconnect, bne, hne]

/-- Witness for C9: an event for server `lobby` leaves a busy controller
state untouched. -/
theorem C9_unmanaged_witness :
    targetsManaged cfgW (some "lobby") = false ∧
    (onServerPreConnect cfgW envGetFail (some "lobby") true 1 2 gStarting =
        (gStarting, false, none, []) ∧
     onServerPostConnect cfgW (some "lobby") 3 gStarting = gStarting ∧
     onDisconnect cfgW (some "lobby") 4 gStarting = gStarting) :=
  ⟨by decide, C9_unmanaged_noop cfgW envGetFail true 1 2 3 4 gStarting
    (some "lobby") (by decide)⟩

/-- C10: a disconnect event for a player with no current server leaves the
whole controller state unchanged, and the deny path of a connection attempt
(which kicks the player before any join) never changes `playerCount`,
`lastActivity` or the idle timer — so denied attempts can neither decrement
the count nor arm the idle timer. -/
theorem C10_no_current_server_frame (cfg : Config) (env : Env)
    (tQuit now nowDone : Nat) (g : gcpController) (name : String)
    (hname : name = cfg.ServerAddress) :
    onDisconnect cfg none tQuit g = g ∧
    (onServerPreConnect cfg env (some name) false now nowDone g).1.playerCount =
      g.playerCount ∧
    (onServerPreConnect cfg env (some name) false now nowDone g).1.lastActivity =
      g.lastActivity ∧
    (onServerPreConnect cfg env (some name) false now nowDone g).1.shutdownTimer =
      g.shutdownTimer := by
  subst hname
  have hpre :
      (onServerPreConnect cfg env (some cfg.ServerAddress) false now nowDone g).1 =
        (tryStartServer cfg env now nowDone g).1 := by
    simp [onServerPreConnect]
  refine ⟨rfl, ?_, ?_, ?_⟩ <;> rw [hpre] <;>
    rcases tryStartServer_cases cfg env now nowDone g with hc | hc <;> rw [hc]

/-- C1 counterexample: a fully successful `tryStartServer` run from the
freshly initialized controller returns `ok` and leaves the state with
`lastStartTime` recorded and `isStarting` raised but with the single timer
field `shutdownTimer` still `none` — no timer of any kind is armed, while
the claim asserts a safety timer is armed for `noJoinTimeout`.  The
`gcpController` struct (source lines 69-81) has no safety-timer field and
`Config` has no `noJoinTimeout`, so the started-but-never-joined instance is
never stopped by a safety timer. -/
theorem C1_counterexample :
    (tryStartServer cfgW envStartOk 5 10 (initController 0)).2.1 = Except.ok () ∧
    (tryStartServer cfgW envStartOk 5 10 (initController 0)).1 =
      { playerCount := 0, lastActivity := 0, lastStartTime := some 10,
        shutdownTimer := none, isStarting := true } :=
  ⟨rfl, rfl⟩

/-- C1 (amended): on the success path `tryStartServer` records
`lastStartTime` (the clock after `op.Wait` returns) and sets
`isStarting = true`, returning `ok` with exactly a `Get` and a `Start` call
issued; it arms no timer — the only timer field, `shutdownTimer`, is
unchanged, since the code has no safety timer and no `noJoinTimeout`. -/
theorem C1_success_no_safety_timer (cfg : Config) (env : Env) (now nowDone : Nat)
    (g : gcpController) (status : String)
    (h1 : throttled cfg now g = false)
    (h2 : env.getStatusResult = Except.ok status)
    (h3 : (status != "TERMINATED" && status != "STOPPED") = false)
    (h4 : env.startResult = Except.ok ())
    (h5 : env.waitStartResult = Except.ok ()) :
    tryStartServer cfg env now nowDone g =
      ({ g with lastStartTime := some nowDone, isStarting := true },
        Except.ok (), [ApiCall.getStatus, ApiCall.start]) ∧
    (tryStartServer cfg env now nowDone g).1.shutdownTimer = g.shutdownTimer := by
  have he : tryStartServer cfg env now nowDone g =
      ({ g with lastStartTime := some nowDone, isStarting := true },
        Except.ok (), [ApiCall.getStatus, ApiCall.start]) := by
    simp [tryStartServer, h1, h2, h3, h4, h5]
  exact ⟨he, by rw [he]⟩

/-- Witness for C1 (amended) at the concrete all-success environment. -/
theorem C1_success_witness :
    throttled cfgW 5 (initController 0) = false ∧
    envStartOk.getStatusResult = Except.ok "STOPPED" ∧
    (("STOPPED" != "TERMINATED") && ("STOPPED" != "STOPPED")) = false ∧
    envStartOk.startResult = Except.ok () ∧
    envStartOk.waitStartResult = Except.ok () ∧
    (tryStartServer cfgW envStartOk 5 10 (initController 0) =
      ({ initController 0 with lastStartTime := some 10, isStarting := true },
        Except.ok (), [ApiCall.getStatus, ApiCall.start]) ∧
     (tryStartServer cfgW envStartOk 5 10 (initController 0)).1.shutdownTimer =
      (initController 0).shutdownTimer) :=
  ⟨rfl, rfl, by decide, rfl, rfl,
    C1_success_no_safety_timer cfgW envStartOk 5 10 (initController 0) "STOPPED"
      rfl rfl (by decide) rfl rfl⟩

/-- C2 counterexample: a join event for the managed server, arriving in a
state where a start is pending (`isStarting = true`) and an idle timer is
armed, is processed (the count becomes 1, the idle timer is cleared,
`lastActivity` is stamped) but `isStarting` is still `true` afterwards — the
handler never writes `isStarting`, while the claim says it sets it to
`false`; there is also no safety-timer field it could cancel. -/
theorem C2_counterexample :
    onServerPostConnect cfgW (some "survival") 50 gStarting =
      { playerCount := 1, lastActivity := 50, lastStartTime := some 5,
        shutdownTimer := none, isStarting := true } := by
  decide

/-- C2 (amended): a join event for the managed server increments
`playerCount`, stamps `lastActivity`, and cancels and clears the pending
idle timer (the `shutdownTimer` field ends up `none` whether or not a timer
was armed); every other field, in particular `isStarting`, is unchanged. -/
theorem C2_join_updates (cfg : Config) (name : String) (now : Nat)
    (g : gcpController) (hname : name = cfg.ServerAddress) :
    onServerPostConnect cfg (some name) now g =
      { g with playerCount := g.playerCount + 1, lastActivity := now,
               shutdownTimer := none } := by
  subst hname
  rcases g with ⟨pc, la, ls, st, is⟩
  cases st <;> simp [onServerPostConnect]

/-- Witness for C2 (amended) at a concrete state with no timer armed. -/
theorem C2_join_witness :
    ("survival" : String) = cfgW.ServerAddress ∧
    onServerPostConnect cfgW (some "survival") 50 gThrottled =
      { gThrottled with
          playerCount := gThrottled.playerCount + 1
          lastActivity := 50
          shutdownTimer := none } :=
  ⟨rfl, C2_join_updates cfgW "survival" 50 gThrottled rfl⟩

/-- Witness for C10: a concrete denied attempt (successful start) and a
stray disconnect leave the counters and the timer of a concrete state
alone. -/
theorem C10_no_current_server_witness :
    ("survival" : String) = cfgW.ServerAddress ∧
    (onDisconnect cfgW none 9 gStarting = gStarting ∧
     (onServerPreConnect cfgW envStartOk (some "survival") false 310000000000
        310000000001 gStarting).1.playerCount = gStarting.playerCount ∧
     (onServerPreConnect cfgW envStartOk (some "survival") false 310000000000
        310000000001 gStarting).1.lastActivity = gStarting.lastActivity ∧
     (onServerPreConnect cfgW envStartOk (some "survival") false 310000000000
        310000000001 gStarting).1.shutdownTimer = gStarting.shutdownTimer) :=
  ⟨rfl, C10_no_current_server_frame cfgW envStartOk 9 310000000000 310000000001
    gStarting "survival" rfl⟩

/-- C8: a disconnect event for the managed server decrements `playerCount`
clamped at 0 and stamps `lastActivity`; exactly when the resulting count is
0 it arms the idle timer for `IdleTimeoutMinutes` from now, overwriting the
single timer slot (the old timer is stopped first, so at most one idle timer
is outstanding); when the count stays nonzero the timer slot is untouched. -/
theorem C8_disconnect_behavior (cfg : Config) (name : String) (now : Nat)
    (g : gcpController) (hname : name = cfg.ServerAddress) :
    (onDisconnect cfg (some name) now g).playerCount = max (g.playerCount - 1) 0 ∧
    (onDisconnect cfg (some name) now g).lastActivity = now ∧
    ((onDisconnect cfg (some name) now g).playerCount = 0 →
      (onDisconnect cfg (some name) now g).shutdownTimer =
        some (now + cfg.IdleTimeoutMinutes * minuteNs)) ∧
    ((onDisconnect cfg (some name) now g).playerCount ≠ 0 →
      (onDisconnect cfg (some name) now g).shutdownTimer = g.shutdownTimer) := by
  subst hname
  by_cases hneg : g.playerCount - 1 < 0
  · have hred : onDisconnect cfg (some cfg.ServerAddress) now g =
        { g with playerCount := 0, lastActivity := now,
                 shutdownTimer := some (now + cfg.IdleTimeoutMinutes * minuteNs) } := by
      simp [onDisconnect, scheduleShutdown, hneg]
    rw [hred]
    exact ⟨by simp; omega, rfl, fun _ => rfl, fun hne => absurd rfl hne⟩
  · by_cases h0 : g.playerCount - 1 = 0
    · have hred : onDisconnect cfg (some cfg.ServerAddress) now g =
          { g with playerCount := g.playerCount - 1, lastActivity := now,
                   shutdownTimer := some (now + cfg.IdleTimeoutMinutes * minuteNs) } := by
        simp [onDisconnect, scheduleShutdown, hneg, h0]

      rw [hred]
      exact ⟨by simp; omega, rfl, fun _ => rfl, fun hne => absurd h0 hne⟩
    · have hred : onDisconnect cfg (some cfg.ServerAddress) now g =
          { g with playerCount := g.playerCount - 1, lastActivity := now } := by
        simp [onDisconnect, hneg, h0]
      rw [hred]
      exact ⟨by simp; omega, rfl, fun he => absurd he h0, fun _ => rfl⟩

/-- Witness for C8: the last player disconnecting takes the count from 1 to
0 and replaces the armed timer with one for `IdleTimeoutMinutes` from now. -/
theorem C8_disconnect_witness :
    ("survival" : String) = cfgW.ServerAddress ∧
    ((onDisconnect cfgW (some "survival") 40 gOne).playerCount =
        max (gOne.playerCount - 1) 0 ∧
     (onDisconnect cfgW (some "survival") 40 gOne).lastActivity = 40 ∧
     ((onDisconnect cfgW (some "survival") 40 gOne).playerCount = 0 →
       (onDisconnect cfgW (some "survival") 40 gOne).shutdownTimer =
         some (40 + cfgW.IdleTimeoutMinutes * minuteNs)) ∧
     ((onDisconnect cfgW (some "survival") 40 gOne).playerCount ≠ 0 →
       (onDisconnect cfgW (some "survival") 40 gOne).shutdownTimer =
         gOne.shutdownTimer)) :=
  ⟨rfl, C8_disconnect_behavior cfgW "survival" 40 gOne rfl⟩

/-- C5: behavior of the idle-timer callback (the `time.AfterFunc` closure in
`scheduleShutdown`) under the player-count invariant: it never mutates the
state; when `playerCount` is nonzero it is a no-op issuing no API call; when
`playerCount` is 0 it runs `stopServer`, which issues a `Stop` call exactly
when `GetStatus` reported `RUNNING`, issues at most one `Stop` call (no
retry), is a no-op (only the `Get` call, no error) when the status is not
`RUNNING`, and on `Stop` failure reports the error. -/
theorem C5_idle_fire_behavior (cfg : Config) (env : Env) (g : gcpController)
    (hpc : 0 ≤ g.playerCount) :
    (shutdownTimerFunc cfg env g).1 = g ∧
    (g.playerCount ≠ 0 → shutdownTimerFunc cfg env g = (g, [], none)) ∧
    (g.playerCount = 0 →
      ((ApiCall.stop ∈ (shutdownTimerFunc cfg env g).2.1) ↔
        env.getStatusResult = Except.ok "RUNNING") ∧
      (shutdownTimerFunc cfg env g).2.1.count ApiCall.stop ≤ 1 ∧
      (∀ status, env.getStatusResult = Except.ok status → status ≠ "RUNNING" →
        shutdownTimerFunc cfg env g = (g, [ApiCall.getStatus], none)) ∧
      (∀ e, env.getStatusResult = Except.ok "RUNNING" →
        env.stopResult = Except.error e →
        (shutdownTimerFunc cfg env g).2.2 =
          some ("failed to stop instance: " ++ e))) := by
  refine ⟨shutdownTimerFunc_fst cfg env g, ?_, ?_⟩
  · intro hne
    have hgt : 0 < g.playerCount := lt_of_le_of_ne hpc (Ne.symm hne)
    simp [shutdownTimerFunc, hgt]
  · intro h0
    have hnot : ¬ (g.playerCount > 0) := by omega
    have hfun : shutdownTimerFunc cfg env g =
        (g, (stopServer cfg env).2,
          match (stopServer cfg env).1 with
          | Except.ok _ => none
          | Except.error e => some e) := by
      unfold shutdownTimerFunc
      rw [if_neg hnot]
      rcases hsp : stopServer cfg env with ⟨res, calls⟩
      cases res <;> rfl
    rcases hg : env.getStatusResult with e1 | status
    · have hstop : stopServer cfg env =
          (Except.error ("failed to get instance state: " ++ e1),
            [ApiCall.getStatus]) := by
        simp [stopServer, hg]
      rw [hfun, hstop]
      refine ⟨by simp,
        (by decide : List.count ApiCall.stop [ApiCall.getStatus] ≤ 1), ?_, ?_⟩
      · intro status hst
        exact absurd hst (by simp)
      · intro e hst
        exact absurd hst (by simp)
    · by_cases hr : status = "RUNNING"
      · subst hr
        rcases hsr : env.stopResult with e2 | u2
        · have hstop : stopServer cfg env =
              (Except.error ("failed to stop instance: " ++ e2),
                [ApiCall.getStatus, ApiCall.stop]) := by
            simp [stopServer, hg, hsr]
          rw [hfun, hstop]
          refine ⟨by simp,
            (by decide :
              List.count ApiCall.stop [ApiCall.getStatus, ApiCall.stop] ≤ 1),
            ?_, ?_⟩
          · intro status' hst hne
            exact absurd (Except.ok.inj hst).symm hne
          · intro e hst hse
            rw [Except.error.inj hse]
        · rcases hw : env.waitStopResult with e3 | u3
          · have hstop : stopServer cfg env =
                (Except.error ("failed to wait for stop operation: " ++ e3),
                  [ApiCall.getStatus, ApiCall.stop]) := by
              simp [stopServer, hg, hsr, hw]
            rw [hfun, hstop]
            refine ⟨by simp,
              (by decide :
                List.count ApiCall.stop [ApiCall.getStatus, ApiCall.stop] ≤ 1),
              ?_, ?_⟩
            · intro status' hst hne
              exact absurd (Except.ok.inj hst).symm hne
            · intro e hst hse
              exact absurd hse (by simp)
          · have hstop : stopServer cfg env =
                (Except.ok (), [ApiCall.getStatus, ApiCall.stop]) := by
              simp [stopServer, hg, hsr, hw]
            rw [hfun, hstop]
            refine ⟨by simp,
              (by decide :
                List.count ApiCall.stop [ApiCall.getStatus, ApiCall.stop] ≤ 1),
              ?_, ?_⟩
            · intro status' hst hne
              exact absurd (Except.ok.inj hst).symm hne
            · intro e hst hse
              exact absurd hse (by simp)
      · have hstop : stopServer cfg env = (Except.ok (), [ApiCall.getStatus]) := by
          simp [stopServer, hg, hr]
        rw [hfun, hstop]
        refine ⟨?_,
          (by decide : List.count ApiCall.stop [ApiCall.getStatus] ≤ 1), ?_, ?_⟩
        · simp
          exact hr
        · intro status' hst hne
          rfl
        · intro e hst hse
          exact absurd (Except.ok.inj hst) hr

/-- Witness for C5 at a concrete running instance whose `Stop` call fails. -/
theorem C5_idle_fire_witness :
    0 ≤ (initController 0).playerCount ∧
    ((shutdownTimerFunc cfgW envStopFail (initController 0)).1 = initController 0 ∧
     ((initController 0).playerCount ≠ 0 →
       shutdownTimerFunc cfgW envStopFail (initController 0) =
         (initController 0, [], none)) ∧
     ((initController 0).playerCount = 0 →
       ((ApiCall.stop ∈ (shutdownTimerFunc cfgW envStopFail (initController 0)).2.1) ↔
         envStopFail.getStatusResult = Except.ok "RUNNING") ∧
       (shutdownTimerFunc cfgW envStopFail (initController 0)).2.1.count
         ApiCall.stop ≤ 1 ∧
       (∀ status, envStopFail.getStatusResult = Except.ok status →
         status ≠ "RUNNING" →
         shutdownTimerFunc cfgW envStopFail (initController 0) =
           (initController 0, [ApiCall.getStatus], none)) ∧
       (∀ e, envStopFail.getStatusResult = Except.ok "RUNNING" →
         envStopFail.stopResult = Except.error e →
         (shutdownTimerFunc cfgW envStopFail (initController 0)).2.2 =
           some ("failed to stop instance: " ++ e)))) :=
  ⟨by decide, C5_idle_fire_behavior cfgW envStopFail (initController 0) (by decide)⟩

/-- A connection attempt never changes the player count (only `onDisconnect`
and `onServerPostConnect` write it). -/
theorem onServerPreConnect_playerCount (cfg : Config) (env : Env)
    (srv : Option String) (reachable : Bool) (now nowDone : Nat)
    (g : gcpController) :
    (onServerPreConnect cfg env srv reachable now nowDone g).1.playerCount =
      g.playerCount := by
  cases srv with
  | none => rfl
  | some name =>
      by_cases hb : (name != cfg.ServerAddress) = true
      · simp [onServerPreConnect, hb]
      · by_cases hr : reachable = true
        · simp [onServerPreConnect, hb, hr]
        · rcases tryStartServer_cases cfg env now nowDone g with hc | hc <;>
            simp [onServerPreConnect, hb, hr, hc]

/-- A join leaves the count unchanged (unmanaged event) or increments it. -/
theorem onServerPostConnect_playerCount (cfg : Config) (srv : Option String)
    (now : Nat) (g : gcpController) :
    (onServerPostConnect cfg srv now g).playerCount = g.playerCount ∨
    (onServerPostConnect cfg srv now g).playerCount = g.playerCount + 1 := by
  cases srv with
  | none => exact Or.inl rfl
  | some name =>
      by_cases hb : (name != cfg.ServerAddress) = true
      · simp [onServerPostConnect, hb]
      · right
        rcases g with ⟨pc, la, ls, st, is⟩
        cases st <;> simp [onServerPostConnect, hb]

/-- A disconnect leaves the count unchanged (unmanaged event) or replaces it
by the clamped decrement. -/
theorem onDisconnect_playerCount (cfg : Config) (srv : Option String)
    (now : Nat) (g : gcpController) :
    (onDisconnect cfg srv now g).playerCount = g.playerCount ∨
    (onDisconnect cfg srv now g).playerCount = max (g.playerCount - 1) 0 := by
  cases srv with
  | none => exact Or.inl rfl
  | some name =>
      by_cases hb : (name != cfg.ServerAddress) = true
      · simp [onDisconnect, hb]
      · right
        by_cases hneg : g.playerCount - 1 < 0
        · simp [onDisconnect, hb, hneg, scheduleShutdown]
          omega
        · by_cases h0 : g.playerCount - 1 = 0
          · simp [onDisconnect, hb, hneg, h0, scheduleShutdown]
          · simp [onDisconnect, hb, hneg, h0]
            omega

/-- Every single operation preserves nonnegativity of the player count. -/
theorem step_playerCount_nonneg (cfg : Config) (g : gcpController) (op : Op)
    (h : 0 ≤ g.playerCount) : 0 ≤ (step cfg g op).playerCount := by
  cases op with
  | preConnect srv reach env now nowDone =>
      simp only [step]
      rw [onServerPreConnect_playerCount]
      exact h
  | postConnect srv now =>
      simp only [step]
      rcases onServerPostConnect_playerCount cfg srv now g with hc | hc <;>
        rw [hc] <;> omega
  | disconnect srv now =>
      simp only [step]
      rcases onDisconnect_playerCount cfg srv now g with hc | hc <;>
        rw [hc] <;> omega
  | timerFire env =>
      simp only [step]
      rw [shutdownTimerFunc_fst]
      exact h

/-- C4: starting from the freshly initialized controller (count 0), every
sequence of connection-attempt, join, disconnect and timer-fire operations
keeps `playerCount` nonnegative — the decrement in `onDisconnect` clamps at
0 even for duplicate or unmatched disconnects. -/
theorem C4_playerCount_nonneg (cfg : Config) (t0 : Nat) (ops : List Op) :
    0 ≤ (run cfg (initController t0) ops).playerCount := by
  have key : ∀ (l : List Op) (g : gcpController), 0 ≤ g.playerCount →
      0 ≤ (run cfg g l).playerCount := by
    intro l
    induction l with
    | nil => intro g h; exact h
    | cons op rest ih =>
        intro g h
        exact ih (step cfg g op) (step_playerCount_nonneg cfg g op h)
  exact key ops (initController t0) le_rfl

/-- Exactly one path of `tryStartServer` is a successful start: it records
`lastStartTime = nowDone` and requires the throttle check to have passed;
every other path leaves `lastStartTime` unchanged. -/
theorem startOk_state (cfg : Config) (env : Env) (now nowDone : Nat)
    (g : gcpController) :
    (startOk (tryStartServer cfg env now nowDone g) = true ∧
      (tryStartServer cfg env now nowDone g).1.lastStartTime = some nowDone ∧
      throttled cfg now g = false) ∨
    (startOk (tryStartServer cfg env now nowDone g) = false ∧
      (tryStartServer cfg env now nowDone g).1.lastStartTime = g.lastStartTime) := by
  by_cases ht : throttled cfg now g = true
  · have he : tryStartServer cfg env now nowDone g = (g, Except.ok (), []) := by
      simp [tryStartServer, ht]
    right
    rw [he]
    exact ⟨rfl, rfl⟩
  · rcases hg : env.getStatusResult with e1 | status
    · have he : tryStartServer cfg env now nowDone g =
          (g, Except.error ("failed to get instance state: " ++ e1),
            [ApiCall.getStatus]) := by
        simp [tryStartServer, ht, hg]
      right
      rw [he]
      exact ⟨rfl, rfl⟩
    · by_cases hs : (status != "TERMINATED" && status != "STOPPED") = true
      · have he : tryStartServer cfg env now nowDone g =
            (g, Except.ok (), [ApiCall.getStatus]) := by
          simp [tryStartServer, ht, hg, hs]
        right
        rw [he]
        exact ⟨rfl, rfl⟩
      · rcases hsr : env.startResult with e2 | u1
        · have he : tryStartServer cfg env now nowDone g =
              (g, Except.error ("failed to start instance: " ++ e2),
                [ApiCall.getStatus, ApiCall.start]) := by
            simp [tryStartServer, ht, hg, hs, hsr]
          right
          rw [he]
          exact ⟨rfl, rfl⟩
        · rcases hw : env.waitStartResult with e3 | u2
          · have he : tryStartServer cfg env now nowDone g =
                (g, Except.error ("failed to wait for start operation: " ++ e3),
                  [ApiCall.getStatus, ApiCall.start]) := by
              simp [tryStartServer, ht, hg, hs, hsr, hw]
            right
            rw [he]
            exact ⟨rfl, rfl⟩
          · have he : tryStartServer cfg env now nowDone g =
                ({ g with lastStartTime := some nowDone, isStarting := true },
                  Except.ok (), [ApiCall.getStatus, ApiCall.start]) := by
              simp [tryStartServer, ht, hg, hs, hsr, hw]
            left
            rw [he]
            exact ⟨rfl, rfl, Bool.eq_false_iff.mpr ht⟩

/-- Passing the throttle check with a recorded `lastStartTime` means at least
the threshold has elapsed since it. -/
theorem throttled_false_spacing (cfg : Config) (now t : Nat) (g : gcpController)
    (h : throttled cfg now g = false) (hl : g.lastStartTime = some t)
    (hle : t ≤ now) : t + cfg.StartupThresholdMinutes * minuteNs ≤ now := by
  simp only [throttled, hl, decide_eq_false_iff_not, not_lt] at h
  omega

/-- A spaced list that starts after completion instant `d` has all its entry
instants at least the threshold after `d`. -/
theorem spaced_lower (w : Nat) :
    ∀ (ss : List (Nat × Nat)) (d : Nat), Spaced w (some d) ss →
      ∀ p ∈ ss, d + w ≤ p.1 := by
  intro ss
  induction ss with
  | nil =>
      intro d _ p hp
      cases hp
  | cons q rest ih =>
      intro d hs p hp
      simp only [Spaced] at hs
      obtain ⟨hq, hqq, hrest⟩ := hs
      rcases List.mem_cons.mp hp with hpq | hp2
      · rw [hpq]
        exact hq d rfl
      · have h2 := ih q.2 hrest p hp2
        have h1 := hq d rfl
        omega

/-- A spaced list of start instants has at most one entry instant in any
half-open window of width `w`. -/
theorem spaced_window (w : Nat) :
    ∀ (ss : List (Nat × Nat)) (prev : Option Nat), Spaced w prev ss →
      ∀ w0 : Nat,
        ((ss.map Prod.fst).countP
          (fun t => decide (w0 ≤ t) && decide (t < w0 + w))) ≤ 1 := by
  intro ss
  induction ss with
  | nil =>
      intro prev _ w0
      simp
  | cons q rest ih =>
      intro prev hs w0
      simp only [Spaced] at hs
      obtain ⟨hq, hqq, hrest⟩ := hs
      rw [List.map_cons, List.countP_cons]
      by_cases hin : (decide (w0 ≤ q.1) && decide (q.1 < w0 + w)) = true
      · have hzero : ((rest.map Prod.fst).countP
            (fun t => decide (w0 ≤ t) && decide (t < w0 + w))) = 0 := by
          rw [List.countP_eq_zero]
          intro t ht
          obtain ⟨p, hp, hpt⟩ := List.mem_map.mp ht
          have hlow := spaced_lower w rest q.2 hrest p hp
          simp only [Bool.and_eq_true, decide_eq_true_eq] at hin ⊢
          intro hcon
          omega
        rw [hzero, hin]
        simp
      · have hrec := ih (some q.2) hrest w0
        simp only [Bool.not_eq_true] at hin
        rw [hin]
        simpa using hrec

/-- Along any chronological trace of attempts, the successful starts are
spaced: each one enters at least the startup threshold after the previous
one completed (the throttle reads `lastStartTime`, which is only written on
success). -/
theorem okStarts_spaced (cfg : Config) :
    ∀ (as : List Attempt) (g : gcpController) (t0 : Nat),
      Chrono t0 as = true →
      (∀ t, g.lastStartTime = some t → t ≤ t0) →
      Spaced (cfg.StartupThresholdMinutes * minuteNs) g.lastStartTime
        (okStarts cfg g as) := by
  intro as
  induction as with
  | nil =>
      intro g t0 _ _
      simp only [okStarts, Spaced]
  | cons a rest ih =>
      intro g t0 hch hg
      rw [Chrono] at hch
      simp only [Bool.and_eq_true, decide_eq_true_eq] at hch
      obtain ⟨⟨h1, h2⟩, h3⟩ := hch
      rcases startOk_state cfg a.env a.tEntry a.tDone g with
        ⟨hok, hlst, hthr⟩ | ⟨hok, hlst⟩
      · have hinv : ∀ t,
            (tryStartServer cfg a.env a.tEntry a.tDone g).1.lastStartTime =
              some t → t ≤ a.tDone := by
          intro t htt
          rw [hlst] at htt
          exact le_of_eq (Option.some.inj htt).symm
        have hrec := ih (tryStartServer cfg a.env a.tEntry a.tDone g).1
          a.tDone h3 hinv
        rw [hlst] at hrec
        simp only [okStarts, hok, if_true, Spaced]
        refine ⟨?_, h2, hrec⟩
        intro t hlt
        exact throttled_false_spacing cfg a.tEntry t g hthr hlt
          (le_trans (hg t hlt) h1)
      · have hinv : ∀ t,
            (tryStartServer cfg a.env a.tEntry a.tDone g).1.lastStartTime =
              some t → t ≤ a.tDone := by
          intro t htt
          rw [hlst] at htt
          exact le_trans (le_trans (hg t htt) h1) h2
        have hrec := ih (tryStartServer cfg a.env a.tEntry a.tDone g).1
          a.tDone h3 hinv
        rw [hlst] at hrec
        simp only [okStarts, hok, Bool.false_eq_true, if_false]
        exact hrec

/-- C3 counterexample: two connection attempts 1ns apart, both observing a
stopped instance, both with a failing `client.Start`.  The failed starts do
not record `lastStartTime`, so neither attempt is throttled and two `Start`
calls are issued within one `startupThreshold` window — refuting "at most
one Start call is issued within any startupThreshold window" as stated. -/
theorem C3_counterexample :
    Chrono 0 cexTrace = true ∧
    allStopped cexTrace = true ∧
    ¬ atMostOnePerWindow (cfgW.StartupThresholdMinutes * minuteNs)
        (startCallTimes cfgW (initController 0) cexTrace) :=
  ⟨by decide, by decide, fun h => absurd (h 0) (by decide)⟩

/-- C3 (amended): the throttle makes `tryStartServer` a complete no-op (no
`Get`, no `Start`); a non-stopped status prevents any `Start` call; and
consequently, along any chronological trace of attempts from a controller
with no recorded start, at most one successful `Start` call is issued within
any `startupThreshold` window (failed `Start` calls do not update
`lastStartTime` and are not throttled). -/
theorem C3_throttle_and_window (cfg : Config)
    (env1 : Env) (now1 nowDone1 : Nat) (g1 : gcpController)
    (env2 : Env) (now2 nowDone2 : Nat) (g2 : gcpController) (status : String)
    (g0 : gcpController) (as : List Attempt) (t0 : Nat)
    (hthr : throttled cfg now1 g1 = true)
    (hst : env2.getStatusResult = Except.ok status)
    (hns : (status != "TERMINATED" && status != "STOPPED") = true)
    (hch : Chrono t0 as = true)
    (h0 : g0.lastStartTime = none) :
    tryStartServer cfg env1 now1 nowDone1 g1 = (g1, Except.ok (), []) ∧
    ApiCall.start ∉ (tryStartServer cfg env2 now2 nowDone2 g2).2.2 ∧
    atMostOnePerWindow (cfg.StartupThresholdMinutes * minuteNs)
      ((okStarts cfg g0 as).map Prod.fst) := by
  refine ⟨by simp [tryStartServer, hthr], ?_, ?_⟩
  · by_cases ht2 : throttled cfg now2 g2 = true
    · simp [tryStartServer, ht2]
    · simp [tryStartServer, ht2, hst, hns]
  · intro w0
    have hsp := okStarts_spaced cfg as g0 t0 hch
      (by intro t htt; rw [h0] at htt; cases htt)
    rw [h0] at hsp
    exact spaced_window (cfg.StartupThresholdMinutes * minuteNs)
      (okStarts cfg g0 as) none hsp w0

/-- Witness for C3 (amended): a throttled state, a running status, and a
one-attempt successful trace. -/
theorem C3_throttle_witness :
    throttled cfgW 0 gThrottled = true ∧
    envRunning.getStatusResult = Except.ok "RUNNING" ∧
    (("RUNNING" != "TERMINATED") && ("RUNNING" != "STOPPED")) = true ∧
    Chrono 0 goodTrace = true ∧
    (initController 0).lastStartTime = none ∧
    (tryStartServer cfgW envRunning 0 0 gThrottled = (gThrottled, Except.ok (), []) ∧
     ApiCall.start ∉ (tryStartServer cfgW envRunning 9 9 gStarting).2.2 ∧
     atMostOnePerWindow (cfgW.StartupThresholdMinutes * minuteNs)
       ((okStarts cfgW (initController 0) goodTrace).map Prod.fst)) :=
  ⟨by decide, rfl, by decide, by decide, rfl,
    C3_throttle_and_window cfgW envRunning 0 0 gThrottled envRunning 9 9
      gStarting "RUNNING" (initController 0) goodTrace 0
      (by decide) rfl (by decide) (by decide) rfl⟩

end GateGcp
